import Mathlib

/-!
Verification of the locking operations of an NETCONF client library
(file ncclient/operations/lock.py): the Lock RPC with its optional
blocking-retry loop, the Unlock RPC, and the LockContext resource
wrapper. The Python code is shallowly embedded: the RPC channel is
represented by the stream of replies it would return (one reply per
send, indexed by the send number), the blocking while-loop becomes a
fuel-indexed recursion, and Python exceptions become an explicit
outcome type. Sleeping and debug logging have no effect on any value
the claims mention and are not modelled.
-/

namespace NcclientLock

/-- One structured rpc-error carried by a reply. The source only ever
reads the tag (line 60 of lock.py) and the severity (line 75), so the
embedding keeps exactly those two fields. -/
structure RPCErr where
  tag : String
  severity : String
deriving DecidableEq, Repr

/-- A reply from the channel, as the Lock code observes it: the ok flag
and the ordered error list (device-reported order, first element is the
primary error). -/
structure RPCReply where
  ok : Bool
  errors : List RPCErr
deriving DecidableEq, Repr

/-- The escalation policy of ncclient.operations.rpc.RaiseMode:
NONE never raises (Suppress), ERRORS raises only when the primary
severity is "error" (RaiseOnError), ALL raises on any error
(RaiseAlways). -/
inductive RaiseMode where
  | NONE
  | ERRORS
  | ALL
deriving DecidableEq, Repr

/-- A request body. The source builds
new_ele("lock"); sub_ele(sub_ele(node, "target"), target), i.e. an
op element containing a target element containing an element named
after the datastore; the embedding keeps the two strings that vary. -/
structure ReqNode where
  op : String
  target : String
deriving DecidableEq, Repr

/-- The lock request body for a datastore (lock.py lines 36 and 37). -/
def lockNode (target : String) : ReqNode := ⟨"lock", target⟩

/-- The unlock request body for a datastore (lock.py lines 96 and 97). -/
def unlockNode (target : String) : ReqNode := ⟨"unlock", target⟩

/-- A Python exception escaping from the lock code:
a single RPCError (raise self._reply.error with one error),
the aggregate RPCError built from the whole error list
(raise RPCError(..., errs=errors) when there are several),
an IndexError from lock_result.errors[0] on an empty list (line 60),
and the crash from treating the absent primary error (None) as an
error object at lines 75 and 80 on an empty list. -/
inductive PyExc where
  | rpcError (e : RPCErr)
  | rpcErrorList (es : List RPCErr)
  | indexError
  | noneTypeCrash
deriving DecidableEq, Repr

/-- What the final raise gate of the blocking path raises once it has
decided to raise (lock.py lines 76 to 80): the aggregate when the reply
carries more than one error, the lone error itself when it carries one,
and the crash value when the list is empty (raise of the absent primary
error). -/
def raiseForReply (errors : List RPCErr) : PyExc :=
  match errors with
  | [] => .noneTypeCrash
  | [e] => .rpcError e
  | es => .rpcErrorList es

/-- The final escalation gate of the blocking path (lock.py lines 74 to
83): return the reply when ok; otherwise raise when the saved mode is
ALL, or when it is ERRORS and the primary severity is "error"; under
ERRORS the severity read crashes when the error list is empty; under
NONE the not-ok reply is returned. -/
def finalEscalation (mode : RaiseMode) (r : RPCReply) : Except PyExc RPCReply :=
  if r.ok then .ok r
  else
    match mode with
    | .ALL => .error (raiseForReply r.errors)
    | .ERRORS =>
      match r.errors with
      | [] => .error .noneTypeCrash
      | e :: _ => if e.severity = "error" then .error (raiseForReply r.errors) else .ok r
    | .NONE => .ok r

/-- Modelled from the spec: RPC._request of ncclient/operations/rpc.py
is not under src/; per the spec the channel sends the request, returns
the structured Result, and may itself raise per the injected escalation
policy (Suppress never raises, RaiseOnError raises only when the primary
error severity is "error", RaiseAlways raises for any error; several
simultaneous errors are raised as one aggregate in device order). -/
def channelSend (mode : RaiseMode) (r : RPCReply) : Except PyExc RPCReply :=
  if r.ok then .ok r
  else
    match mode with
    | .ALL => .error (raiseForReply r.errors)
    | .ERRORS =>
      match r.errors with
      | [] => .error .noneTypeCrash
      | e :: _ => if e.severity = "error" then .error (raiseForReply r.errors) else .ok r
    | .NONE => .ok r

/-- Termination of the blocking while-loop (lock.py lines 46 to 71):
either the loop broke with a last reply after a number of sends, or it
crashed with IndexError reading errors[0] of an errorless not-ok reply. -/
inductive LoopOut where
  | done (sends : Nat) (last : RPCReply)
  | crash (sends : Nat)
deriving DecidableEq, Repr

/-- Number of lock requests the loop sent before stopping. -/
def LoopOut.sends : LoopOut → Nat
  | .done s _ => s
  | .crash s => s

/-- The blocking while-loop of Lock.request (lock.py lines 46 to 71),
run with the raise mode already forced to NONE so that each send simply
yields the reply stream at the send index. k is the number of sends
already performed, so the tries counter of the source equals k + 1 right
after its increment in the iteration that performs send k. The loop has
no bound of its own when retries <= 0, so the recursion is indexed by
fuel; none means the loop was still running after fuel sends. -/
def lockLoop (replies : Nat → RPCReply) (retries : Int) : Nat → Nat → Option LoopOut
  | 0, _ => none
  | fuel + 1, k =>
    if (replies k).ok then some (.done (k + 1) (replies k))
    else if retries > 0 ∧ (k : Int) + 1 > retries then some (.done (k + 1) (replies k))
    else
      match (replies k).errors with
      | [] => some (.crash (k + 1))
      | e :: _ =>
        if e.tag ≠ "lock-denied" then some (.done (k + 1) (replies k))
        else lockLoop replies retries fuel (k + 1)

/-- Outcome of one Lock.request call: a returned reply, a raised
exception, or (blocking mode with retries <= 0 only) still looping after
the available fuel. sends counts the lock requests sent. -/
inductive ReqOut where
  | returned (sends : Nat) (r : RPCReply)
  | raised (sends : Nat) (e : PyExc)
  | hang
deriving DecidableEq, Repr

/-- Lift the Except-valued escalation result to a request outcome. -/
def toReqOut (s : Nat) : Except PyExc RPCReply → ReqOut
  | .ok r => .returned s r
  | .error e => .raised s e

/-- A complete run of Lock.request: the trace of sent request bodies,
each paired with the raise mode in force on the operation object at that
send; the outcome; and the value of the raise-mode field of the
operation object once the call is over. -/
structure LockRun where
  trace : List (ReqNode × RaiseMode)
  out : ReqOut
  finalMode : RaiseMode
deriving DecidableEq, Repr

/-- Lock.request (lock.py lines 31 to 83). Non-blocking: build the lock
node and return self._request(node), one send under the ambient mode.
Blocking: save the original mode, set the field to RaiseMode.NONE, run
the retry loop, then apply the saved original mode once to the last
reply; the field is never written back, so it stays NONE after the
call. -/
def lockRequest (target : String) (replies : Nat → RPCReply) (blocking : Bool)
    (retries : Int) (mode0 : RaiseMode) (fuel : Nat) : LockRun :=
  if blocking then
    match lockLoop replies retries fuel 0 with
    | none =>
      ⟨List.replicate fuel (lockNode target, RaiseMode.NONE), .hang, RaiseMode.NONE⟩
    | some (.crash s) =>
      ⟨List.replicate s (lockNode target, RaiseMode.NONE), .raised s .indexError, RaiseMode.NONE⟩
    | some (.done s r) =>
      ⟨List.replicate s (lockNode target, RaiseMode.NONE),
       toReqOut s (finalEscalation mode0 r), RaiseMode.NONE⟩
  else
    ⟨[(lockNode target, mode0)], toReqOut 1 (channelSend mode0 (replies 0)), mode0⟩

/-- Unlock.request (lock.py lines 91 to 98): build the unlock node and
return self._request(node) - a single send, escalation fully delegated
to the channel under the ambient mode. -/
def unlockRequest (target : String) (reply : RPCReply) (mode0 : RaiseMode) : LockRun :=
  ⟨[(unlockNode target, mode0)], toReqOut 1 (channelSend mode0 reply), mode0⟩

/-- Outcome of a with-statement over a LockContext: normal completion of
the protected block, an exception from the Lock call at entry (the block
never ran), the exception of the protected block propagating after exit
completed (exit returns False so it never suppresses), an exception from
the Unlock call at exit (carrying the pending block exception as Python
exception context, when there was one), or a lock loop still running. -/
inductive CtxOut (α : Type) where
  | normal (a : α)
  | raisedEnter (e : PyExc)
  | raisedBody (msg : String)
  | raisedExit (e : PyExc) (pending : Option String)
  | hang
deriving DecidableEq, Repr

/-- A complete run of with LockContext(...): whether the protected block
ran, the entry Lock run, the trace of unlock sends, and the outcome. -/
structure CtxRun (α : Type) where
  bodyRan : Bool
  enter : LockRun
  unlockTrace : List (ReqNode × RaiseMode)
  out : CtxOut α
deriving Repr

/-- Python exit semantics of the with-statement once the block has run:
__exit__ returns False, so with a non-raising unlock the block outcome
stands (normal value or propagating exception), and a raising unlock
propagates its own exception carrying the pending block exception as
context. -/
def exitOutcome {α : Type} (body : Except String α)
    (unlockRes : Except PyExc RPCReply) : CtxOut α :=
  match body, unlockRes with
  | .ok a, .ok _ => .normal a
  | .error e, .ok _ => .raisedBody e
  | .ok _, .error e2 => .raisedExit e2 none
  | .error e, .error e2 => .raisedExit e2 (some e)

/-- The with-statement over LockContext (lock.py lines 101 to 128),
with the protected block given as its outcome (a value or a raised
message). __enter__ runs Lock(..., raise_mode=RaiseMode.ERRORS).request
with the stored parameters; if that raises, entry fails and the block
never runs. Otherwise the block runs, and __exit__ always runs
Unlock(..., raise_mode=RaiseMode.ERRORS).request(target) and returns
False. -/
def runLockContext {α : Type} (target : String) (lockReplies : Nat → RPCReply)
    (unlockReply : RPCReply) (blocking : Bool) (retries : Int) (fuel : Nat)
    (body : Except String α) : CtxRun α :=
  let enter := lockRequest target lockReplies blocking retries RaiseMode.ERRORS fuel
  match enter.out with
  | .returned _ _ =>
    ⟨true, enter, [(unlockNode target, RaiseMode.ERRORS)],
      exitOutcome body (channelSend RaiseMode.ERRORS unlockReply)⟩
  | .raised _ e => ⟨false, enter, [], .raisedEnter e⟩
  | .hang => ⟨false, enter, [], .hang⟩

/-- A persistently denying channel: every attempt is answered not-ok
with the single retryable lock-denied error. -/
def deniedReply : RPCReply := ⟨false, [⟨"lock-denied", "error"⟩]⟩

/-- A successful reply. -/
def okReply : RPCReply := ⟨true, []⟩

/-- A not-ok reply carrying two errors, in device order. -/
def twoErrReply : RPCReply :=
  ⟨false, [⟨"too-many-sessions", "error"⟩, ⟨"session-locked", "warning"⟩]⟩

/-- A not-ok reply with an empty error list. -/
def emptyErrReply : RPCReply := ⟨false, []⟩

/-- A channel that answers lock-denied on the first attempt and a
non-retryable error afterwards. -/
def deniedThenSess : Nat → RPCReply :=
  fun k => if k = 0 then deniedReply else ⟨false, [⟨"too-many-sessions", "error"⟩]⟩

/-- A reply carrying a single non-retryable error of warning severity. -/
def warnReply : RPCReply := ⟨false, [⟨"access-denied", "warning"⟩]⟩

/-- A reply carrying a single non-retryable error of error severity. -/
def sessErrReply : RPCReply := ⟨false, [⟨"too-many-sessions", "error"⟩]⟩

section Helpers

/-- Unfolding lemma: the loop with no fuel left is still running. -/
theorem lockLoop_zero (replies : Nat → RPCReply) (retries : Int) (k : Nat) :
    lockLoop replies retries 0 k = none := rfl

/-- Unfolding lemma: one iteration of the blocking loop. -/
theorem lockLoop_step (replies : Nat → RPCReply) (retries : Int) (fuel k : Nat) :
    lockLoop replies retries (fuel + 1) k =
      if (replies k).ok then some (.done (k + 1) (replies k))
      else if retries > 0 ∧ (k : Int) + 1 > retries then some (.done (k + 1) (replies k))
      else
        match (replies k).errors with
        | [] => some (.crash (k + 1))
        | e :: _ =>
          if e.tag ≠ "lock-denied" then some (.done (k + 1) (replies k))
          else lockLoop replies retries fuel (k + 1) := rfl

/-- The last reply of a finished loop is the reply to its last send. -/
theorem lockLoop_done_last (replies : Nat → RPCReply) (retries : Int) :
    ∀ fuel k s r, lockLoop replies retries fuel k = some (.done s r) → r = replies (s - 1) := by
  intro fuel
  induction fuel with
  | zero => intro k s r h; simp [lockLoop_zero] at h
  | succ f ih =>
    intro k s r h
    rw [lockLoop_step] at h
    by_cases hok : (replies k).ok
    · simp [hok] at h
      obtain ⟨hs, hr⟩ := h
      subst hs; subst hr; simp
    · simp [hok] at h
      by_cases hbound : retries > 0 ∧ (k : Int) + 1 > retries
      · simp [hbound] at h
        obtain ⟨hs, hr⟩ := h
        subst hs; subst hr; simp
      · simp [hbound] at h
        cases herr : (replies k).errors with
        | nil => rw [herr] at h; simp at h
        | cons e t =>
          rw [herr] at h
          by_cases htag : e.tag = "lock-denied"
          · simp [htag] at h
            exact ih (k + 1) s r h
          · simp [htag] at h
            obtain ⟨hs, hr⟩ := h
            subst hs; subst hr; simp

/-- A loop crash is the IndexError of reading errors[0] of a not-ok
reply with an empty error list, namely the reply to the last send. -/
theorem lockLoop_crash_char (replies : Nat → RPCReply) (retries : Int) :
    ∀ fuel k s, lockLoop replies retries fuel k = some (.crash s) →
      (replies (s - 1)).ok = false ∧ (replies (s - 1)).errors = [] := by
  intro fuel
  induction fuel with
  | zero => intro k s h; simp [lockLoop_zero] at h
  | succ f ih =>
    intro k s h
    rw [lockLoop_step] at h
    by_cases hok : (replies k).ok
    · simp [hok] at h
    · simp [hok] at h
      by_cases hbound : retries > 0 ∧ (k : Int) + 1 > retries
      · simp [hbound] at h
      · simp [hbound] at h
        cases herr : (replies k).errors with
        | nil =>
          rw [herr] at h
          simp at h
          subst h
          simpa [herr] using Bool.eq_false_iff.mpr hok
        | cons e t =>
          rw [herr] at h
          by_cases htag : e.tag = "lock-denied"
          · simp [htag] at h
            exact ih (k + 1) s h
          · simp [htag] at h

/-- Against a channel that keeps answering a not-ok reply whose primary
error tag is lock-denied, with a positive retry bound N, the loop that
still has d sends budgeted (k + d = N) finishes with N + 1 total sends
and the reply to the last send. -/
theorem lockLoop_denied_exhaust (replies : Nat → RPCReply) (N : Nat) (hN : 0 < N)
    (hp : ∀ k, (replies k).ok = false ∧
      ((replies k).errors.head?.map RPCErr.tag) = some "lock-denied") :
    ∀ d k fuel, k + d = N → d + 1 ≤ fuel →
      lockLoop replies (N : Int) fuel k = some (.done (N + 1) (replies N)) := by
  intro d
  induction d with
  | zero =>
    intro k fuel hk hfuel
    obtain ⟨f, rfl⟩ : ∃ f, fuel = f + 1 := ⟨fuel - 1, by omega⟩
    have hkN : k = N := by omega
    rw [lockLoop_step]
    have hok := (hp k).1
    have hbound : (N : Int) > 0 ∧ (k : Int) + 1 > (N : Int) := by
      constructor
      · exact_mod_cast hN
      · omega
    simp [hok, hbound, hkN]
  | succ d ih =>
    intro k fuel hk hfuel
    obtain ⟨f, rfl⟩ : ∃ f, fuel = f + 1 := ⟨fuel - 1, by omega⟩
    rw [lockLoop_step]
    have hok := (hp k).1
    have htag := (hp k).2
    have hbound : ¬((N : Int) > 0 ∧ (k : Int) + 1 > (N : Int)) := by
      intro hc
      omega
    cases herr : (replies k).errors with
    | nil => rw [herr] at htag; simp at htag
    | cons e t =>
      rw [herr] at htag
      simp at htag
      simp [hok, hbound, herr, htag]
      rw [if_neg (by omega)]
      exact ih (k + 1) f (by omega) (by omega)

/-- Every reply the loop moved past (all sends but the last) was a
not-ok reply whose primary error tag was lock-denied. -/
theorem lockLoop_moved_past (replies : Nat → RPCReply) (retries : Int) :
    ∀ fuel k out, lockLoop replies retries fuel k = some out →
      ∀ j, k ≤ j → j + 1 < out.sends →
        (replies j).ok = false ∧
          ((replies j).errors.head?.map RPCErr.tag) = some "lock-denied" := by
  intro fuel
  induction fuel with
  | zero => intro k out h; simp [lockLoop_zero] at h
  | succ f ih =>
    intro k out h j hkj hjs
    rw [lockLoop_step] at h
    by_cases hok : (replies k).ok
    · simp [hok] at h
      subst h
      simp [LoopOut.sends] at hjs
      omega
    · simp [hok] at h
      by_cases hbound : retries > 0 ∧ (k : Int) + 1 > retries
      · simp [hbound] at h
        subst h
        simp [LoopOut.sends] at hjs
        omega
      · simp [hbound] at h
        cases herr : (replies k).errors with
        | nil =>
          rw [herr] at h
          simp at h
          subst h
          simp [LoopOut.sends] at hjs
          omega
        | cons e t =>
          rw [herr] at h
          by_cases htag : e.tag = "lock-denied"
          · simp [htag] at h
            rcases Nat.eq_or_lt_of_le hkj with heq | hlt
            · subst heq
              refine ⟨Bool.eq_false_iff.mpr hok, ?_⟩
              simp [herr, htag]
            · exact ih (k + 1) out h j hlt hjs
          · simp [htag] at h
            subst h
            simp [LoopOut.sends] at hjs
            omega

/-- With retries <= 0 the loop can only finish through success or a
non-retryable (not lock-denied) primary error. -/
theorem lockLoop_unbounded_done (replies : Nat → RPCReply) (retries : Int)
    (hr : retries ≤ 0) :
    ∀ fuel k s r, lockLoop replies retries fuel k = some (.done s r) →
      r.ok = true ∨ ∃ e es, r.errors = e :: es ∧ e.tag ≠ "lock-denied" := by
  intro fuel
  induction fuel with
  | zero => intro k s r h; simp [lockLoop_zero] at h
  | succ f ih =>
    intro k s r h
    rw [lockLoop_step] at h
    by_cases hok : (replies k).ok
    · simp [hok] at h
      exact Or.inl (h.2 ▸ hok)
    · simp [hok] at h
      have hbound : ¬(retries > 0 ∧ (k : Int) + 1 > retries) := by
        intro hc
        omega
      simp [hbound] at h
      cases herr : (replies k).errors with
      | nil => rw [herr] at h; simp at h
      | cons e t =>
        rw [herr] at h
        by_cases htag : e.tag = "lock-denied"
        · simp [htag] at h
          exact ih (k + 1) s r h
        · simp [htag] at h
          exact Or.inr ⟨e, t, h.2 ▸ herr, htag⟩

/-- With retries <= 0 and a persistently lock-denied channel the loop
never terminates, whatever the fuel. -/
theorem lockLoop_unbounded_denied_none (replies : Nat → RPCReply) (retries : Int)
    (hr : retries ≤ 0)
    (hp : ∀ k, (replies k).ok = false ∧
      ((replies k).errors.head?.map RPCErr.tag) = some "lock-denied") :
    ∀ fuel k, lockLoop replies retries fuel k = none := by
  intro fuel
  induction fuel with
  | zero => intro k; simp [lockLoop_zero]
  | succ f ih =>
    intro k
    rw [lockLoop_step]
    have hok := (hp k).1
    have htag := (hp k).2
    have hbound : ¬(retries > 0 ∧ (k : Int) + 1 > retries) := by
      intro hc
      omega
    cases herr : (replies k).errors with
    | nil => rw [herr] at htag; simp at htag
    | cons e t =>
      rw [herr] at htag
      simp at htag
      simp [hok, hbound, herr, htag, ih (k + 1)]

/-- The channel hands the reply back unmodified whenever it does not
raise. -/
theorem channelSend_ok_eq (mode : RaiseMode) (r r2 : RPCReply)
    (h : channelSend mode r = .ok r2) : r2 = r := by
  unfold channelSend at h
  by_cases hok : r.ok
  · simp [hok] at h
    exact h.symm
  · simp [hok] at h
    cases mode with
    | NONE => simp at h; exact h.symm
    | ALL => simp at h
    | ERRORS =>
      cases herr : r.errors with
      | nil => rw [herr] at h; simp at h
      | cons e t =>
        rw [herr] at h
        by_cases hsev : e.severity = "error"
        · simp [hsev] at h
        · simp [hsev] at h
          exact h.symm

/-- A reply whose error list is nonempty whenever it is not ok never
drives the final escalation gate into a crash. -/
theorem finalEscalation_no_crash (mode : RaiseMode) (r : RPCReply)
    (h : r.ok = false → r.errors ≠ []) :
    finalEscalation mode r ≠ .error .noneTypeCrash ∧
      finalEscalation mode r ≠ .error .indexError := by
  unfold finalEscalation
  by_cases hok : r.ok
  · simp [hok]
  · have hne := h (Bool.eq_false_iff.mpr hok)
    cases herr : r.errors with
    | nil => exact absurd herr hne
    | cons e t =>
      cases mode with
      | NONE => simp [hok]
      | ALL =>
        cases t with
        | nil => simp [hok, raiseForReply]
        | cons e2 t2 => simp [hok, raiseForReply]
      | ERRORS =>
        by_cases hsev : e.severity = "error"
        · cases t with
          | nil => simp [hok, hsev, raiseForReply]
          | cons e2 t2 => simp [hok, hsev, raiseForReply]
        · simp [hok, hsev]

end Helpers

example :
    lockLoop (fun _ => deniedReply) 2 10 0 = some (.done 3 deniedReply) := by decide

example :
    lockLoop (fun _ => ⟨false, [⟨"too-many-sessions", "error"⟩]⟩) 5 10 0 =
      some (.done 1 ⟨false, [⟨"too-many-sessions", "error"⟩]⟩) := by decide

example : lockLoop (fun _ => deniedReply) 0 50 0 = none := by decide

/-- C1 counterexample: a LockContext entry whose lock acquisition fails
with a warning-severity error does not raise: the blocking lock call
returns the not-ok reply under RaiseMode.ERRORS and the protected block
runs, contradicting the claim that any failed acquisition aborts
entry. -/
theorem ctx_enter_strict_cex :
    (runLockContext "candidate" (fun _ => warnReply) okReply true 1 5
        (Except.ok 0 : Except String Nat)).bodyRan = true
    ∧ (lockRequest "candidate" (fun _ => warnReply) true 1 RaiseMode.ERRORS 5).out =
        .returned 1 warnReply
    ∧ warnReply.ok = false := by decide

/-- C1 (amended): LockContext entry invokes the Lock operation under
RaiseMode.ERRORS, not a RaiseAlways-like strict mode: the protected
block runs exactly when that Lock call returns without raising, and a
failed blocking acquisition whose primary severity is "error" raises
and aborts entry so the block never runs; a warning-severity failure
does not abort entry. -/
theorem ctx_enter_errors_policy {α : Type} (target : String) (lockReplies : Nat → RPCReply)
    (unlockReply : RPCReply) (blocking : Bool) (retries : Int) (fuel : Nat)
    (body : Except String α) :
    (runLockContext target lockReplies unlockReply blocking retries fuel body).enter =
        lockRequest target lockReplies blocking retries RaiseMode.ERRORS fuel
    ∧ ((runLockContext target lockReplies unlockReply blocking retries fuel body).bodyRan = true ↔
        ∃ s r, (lockRequest target lockReplies blocking retries RaiseMode.ERRORS fuel).out =
          ReqOut.returned s r)
    ∧ (∀ s r e es, lockLoop lockReplies retries fuel 0 = some (.done s r) → r.ok = false →
        r.errors = e :: es → e.severity = "error" →
        (runLockContext target lockReplies unlockReply true retries fuel body).bodyRan = false
        ∧ (runLockContext target lockReplies unlockReply true retries fuel body).out =
          CtxOut.raisedEnter (raiseForReply r.errors)) := by
  refine ⟨?_, ?_, ?_⟩
  · cases h : (lockRequest target lockReplies blocking retries RaiseMode.ERRORS fuel).out with
    | returned s r => simp [runLockContext, h]
    | raised s e => simp [runLockContext, h]
    | hang => simp [runLockContext, h]
  · cases h : (lockRequest target lockReplies blocking retries RaiseMode.ERRORS fuel).out with
    | returned s r =>
      simp [runLockContext, h]
    | raised s e =>
      simp [runLockContext, h]
    | hang =>
      simp [runLockContext, h]
  · intro s r e es hl hok herr hsev
    have hout : (lockRequest target lockReplies true retries RaiseMode.ERRORS fuel).out =
        ReqOut.raised s (raiseForReply r.errors) := by
      simp [lockRequest, hl, finalEscalation, hok, herr, hsev, toReqOut]
    exact ⟨by simp [runLockContext, hout], by simp [runLockContext, hout]⟩

/-- C1 witness for the amended claim: a blocking acquisition that fails
with the error-severity too-many-sessions reply raises at entry and the
protected block never runs. -/
theorem ctx_enter_errors_policy_witness :
    (runLockContext "candidate" (fun _ => sessErrReply) okReply true 1 5
        (Except.ok 0 : Except String Nat)).bodyRan = false
    ∧ (runLockContext "candidate" (fun _ => sessErrReply) okReply true 1 5
        (Except.ok 0 : Except String Nat)).out =
      CtxOut.raisedEnter (raiseForReply sessErrReply.errors) :=
  (ctx_enter_errors_policy "candidate" (fun _ => sessErrReply) okReply true 1 5
    (Except.ok 0)).2.2 1 sessErrReply ⟨"too-many-sessions", "error"⟩ [] (by decide) rfl rfl rfl

/-- C2 counterexample: a blocking lock call begun under RaiseMode.ALL
leaves the raise-mode field of the operation at RaiseMode.NONE after
returning - the field is never restored to the value it had when the
call began. -/
theorem raise_mode_not_restored_cex :
    (lockRequest "candidate" (fun _ => okReply) true 0 RaiseMode.ALL 3).finalMode =
      RaiseMode.NONE ∧ RaiseMode.NONE ≠ RaiseMode.ALL := by decide

/-- C2 (amended): the blocking path saves the original escalation
policy, overrides the field with Suppress for the loop, and applies the
saved original exactly once to the final outcome, but it does not
restore the field: after any blocking Lock.request the raise-mode field
is RaiseMode.NONE regardless of the original. -/
theorem blocking_mode_saved_applied_not_restored (target : String) (replies : Nat → RPCReply)
    (retries : Int) (mode0 : RaiseMode) (fuel : Nat) :
    (lockRequest target replies true retries mode0 fuel).finalMode = RaiseMode.NONE
    ∧ (∀ s r, lockLoop replies retries fuel 0 = some (.done s r) →
        (lockRequest target replies true retries mode0 fuel).out =
          toReqOut s (finalEscalation mode0 r)) := by
  constructor
  · cases hl : lockLoop replies retries fuel 0 with
    | none => simp [lockRequest, hl]
    | some lo => cases lo with
      | done s r => simp [lockRequest, hl]
      | crash s => simp [lockRequest, hl]
  · intro s r hl
    simp [lockRequest, hl]

/-- C2 witness: with an immediately successful blocking call begun
under RaiseMode.ALL the field ends at NONE and the final outcome is the
saved policy applied to the final reply. -/
theorem blocking_mode_saved_applied_not_restored_witness :
    (lockRequest "candidate" (fun _ => okReply) true 0 RaiseMode.ALL 3).finalMode =
      RaiseMode.NONE
    ∧ (lockRequest "candidate" (fun _ => okReply) true 0 RaiseMode.ALL 3).out =
      toReqOut 1 (finalEscalation RaiseMode.ALL okReply) :=
  ⟨(blocking_mode_saved_applied_not_restored "candidate" (fun _ => okReply) 0
      RaiseMode.ALL 3).1,
   (blocking_mode_saved_applied_not_restored "candidate" (fun _ => okReply) 0
      RaiseMode.ALL 3).2 1 okReply (by decide)⟩

/-- C3: a blocking lock call with retries = N > 0 against a channel
answering every attempt not-ok with primary tag lock-denied sends
exactly N + 1 lock requests and finishes with a final reply that is not
ok. -/
theorem blocking_denied_exhausts_retries (target : String) (replies : Nat → RPCReply)
    (N fuel : Nat) (mode0 : RaiseMode) (hN : 0 < N)
    (hp : ∀ k, (replies k).ok = false ∧
      ((replies k).errors.head?.map RPCErr.tag) = some "lock-denied")
    (hfuel : N + 1 ≤ fuel) :
    lockLoop replies (N : Int) fuel 0 = some (.done (N + 1) (replies N))
    ∧ (lockRequest target replies true (N : Int) mode0 fuel).trace.length = N + 1
    ∧ (replies N).ok = false := by
  have hl := lockLoop_denied_exhaust replies N hN hp N 0 fuel (by omega) (by omega)
  refine ⟨hl, ?_, (hp N).1⟩
  simp [lockRequest, hl]

/-- C3 witness: N = 2, persistent lock-denied, 3 requests sent, final
reply not ok. -/
theorem blocking_denied_exhausts_retries_witness :
    lockLoop (fun _ => deniedReply) ((2 : Nat) : Int) 10 0 = some (.done 3 deniedReply)
    ∧ (lockRequest "candidate" (fun _ => deniedReply) true ((2 : Nat) : Int)
        RaiseMode.NONE 10).trace.length = 3
    ∧ deniedReply.ok = false :=
  blocking_denied_exhausts_retries "candidate" (fun _ => deniedReply) 2 10
    RaiseMode.NONE (by decide) (fun _ => ⟨rfl, rfl⟩) (by decide)

/-- C4: when a blocking lock call under RaiseMode.ALL ends with a
not-ok final reply, a single carried error is raised as exactly that
error, and two or more carried errors are raised as one aggregate
holding the whole list in device order. -/
theorem raise_all_single_or_aggregate (target : String) (replies : Nat → RPCReply)
    (retries : Int) (fuel s : Nat) (r : RPCReply)
    (hl : lockLoop replies retries fuel 0 = some (.done s r)) (hok : r.ok = false) :
    (∀ e, r.errors = [e] →
      (lockRequest target replies true retries RaiseMode.ALL fuel).out =
        ReqOut.raised s (.rpcError e))
    ∧ (∀ e1 e2 es, r.errors = e1 :: e2 :: es →
      (lockRequest target replies true retries RaiseMode.ALL fuel).out =
        ReqOut.raised s (.rpcErrorList (e1 :: e2 :: es))) := by
  constructor
  · intro e herr
    simp [lockRequest, hl, finalEscalation, hok, herr, raiseForReply, toReqOut]
  · intro e1 e2 es herr
    simp [lockRequest, hl, finalEscalation, hok, herr, raiseForReply, toReqOut]

/-- C4 witness: one error raises that error; two errors raise the
aggregate with both, in order. -/
theorem raise_all_single_or_aggregate_witness :
    (lockRequest "candidate" (fun _ => sessErrReply) true 0 RaiseMode.ALL 5).out =
      ReqOut.raised 1 (.rpcError ⟨"too-many-sessions", "error"⟩)
    ∧ (lockRequest "candidate" (fun _ => twoErrReply) true 0 RaiseMode.ALL 5).out =
      ReqOut.raised 1
        (.rpcErrorList [⟨"too-many-sessions", "error"⟩, ⟨"session-locked", "warning"⟩]) :=
  ⟨(raise_all_single_or_aggregate "candidate" (fun _ => sessErrReply) 0 5 1 sessErrReply
      (by decide) rfl).1 ⟨"too-many-sessions", "error"⟩ rfl,
   (raise_all_single_or_aggregate "candidate" (fun _ => twoErrReply) 0 5 1 twoErrReply
      (by decide) rfl).2 ⟨"too-many-sessions", "error"⟩ ⟨"session-locked", "warning"⟩ [] rfl⟩

/-- C5: every reply the blocking loop moved past (all sends but the
last) was not-ok with primary tag lock-denied, so a non-retryable error
ends the loop with no further send whatever the remaining budget; and
with retries <= 0 the loop can finish only through success or a
non-lock-denied error and never finishes against a persistently denying
channel. -/
theorem blocking_nonretryable_terminal (replies : Nat → RPCReply) (retries : Int)
    (fuel : Nat) :
    (∀ out, lockLoop replies retries fuel 0 = some out →
      ∀ j, j + 1 < out.sends →
        (replies j).ok = false ∧
          ((replies j).errors.head?.map RPCErr.tag) = some "lock-denied")
    ∧ (retries ≤ 0 → ∀ s r, lockLoop replies retries fuel 0 = some (.done s r) →
        r.ok = true ∨ ∃ e es, r.errors = e :: es ∧ e.tag ≠ "lock-denied")
    ∧ (retries ≤ 0 →
        (∀ k, (replies k).ok = false ∧
          ((replies k).errors.head?.map RPCErr.tag) = some "lock-denied") →
        lockLoop replies retries fuel 0 = none) := by
  refine ⟨?_, ?_, ?_⟩
  · intro out h j hj
    exact lockLoop_moved_past replies retries fuel 0 out h j (Nat.zero_le j) hj
  · intro hr s r h
    exact lockLoop_unbounded_done replies retries hr fuel 0 s r h
  · intro hr hp
    exact lockLoop_unbounded_denied_none replies retries hr hp fuel 0

/-- C5 witness: lock-denied then too-many-sessions with retries = 0
stops after the second send, every earlier reply was lock-denied, the
final reply ends the loop through its non-retryable tag, and the
constant lock-denied channel never terminates the loop. -/
theorem blocking_nonretryable_terminal_witness :
    ((deniedThenSess 0).ok = false ∧
      ((deniedThenSess 0).errors.head?.map RPCErr.tag) = some "lock-denied")
    ∧ (sessErrReply.ok = true ∨
        ∃ e es, sessErrReply.errors = e :: es ∧ e.tag ≠ "lock-denied")
    ∧ lockLoop (fun _ => deniedReply) 0 10 0 = none :=
  ⟨(blocking_nonretryable_terminal deniedThenSess 0 10).1 (.done 2 sessErrReply)
      (by decide) 0 (by decide),
   (blocking_nonretryable_terminal deniedThenSess 0 10).2.1 (by decide) 2 sessErrReply
      (by decide),
   (blocking_nonretryable_terminal (fun _ => deniedReply) 0 10).2.2 (by decide)
      (fun _ => ⟨rfl, rfl⟩)⟩

/-- C6: every send of the blocking loop goes out with the raise mode
forced to RaiseMode.NONE whatever the caller requested, and the
requested policy is applied exactly once, to the final reply of the
loop. -/
theorem blocking_intermediate_suppress (target : String) (replies : Nat → RPCReply)
    (retries : Int) (mode0 : RaiseMode) (fuel : Nat) :
    (∀ p ∈ (lockRequest target replies true retries mode0 fuel).trace,
      p.2 = RaiseMode.NONE)
    ∧ (∀ s r, lockLoop replies retries fuel 0 = some (.done s r) →
        (lockRequest target replies true retries mode0 fuel).out =
          toReqOut s (finalEscalation mode0 r)) := by
  constructor
  · intro p hp
    cases hl : lockLoop replies retries fuel 0 with
    | none =>
      simp [lockRequest, hl, List.mem_replicate] at hp
      simp [hp.2]
    | some lo =>
      cases lo with
      | done s r =>
        simp [lockRequest, hl, List.mem_replicate] at hp
        simp [hp.2]
      | crash s =>
        simp [lockRequest, hl, List.mem_replicate] at hp
        simp [hp.2]
  · intro s r hl
    simp [lockRequest, hl]

/-- C6 witness: under requested RaiseMode.ALL with persistent
lock-denied and retries = 2, a loop send carries RaiseMode.NONE and the
outcome is ALL applied once to the final reply. -/
theorem blocking_intermediate_suppress_witness :
    ((lockNode "candidate", RaiseMode.NONE) : ReqNode × RaiseMode).2 = RaiseMode.NONE
    ∧ (lockRequest "candidate" (fun _ => deniedReply) true 2 RaiseMode.ALL 10).out =
      toReqOut 3 (finalEscalation RaiseMode.ALL deniedReply) :=
  ⟨(blocking_intermediate_suppress "candidate" (fun _ => deniedReply) 2 RaiseMode.ALL 10).1
      (lockNode "candidate", RaiseMode.NONE) (by decide),
   (blocking_intermediate_suppress "candidate" (fun _ => deniedReply) 2 RaiseMode.ALL 10).2
      3 deniedReply (by decide)⟩

/-- C7: a lock call under RaiseMode.ERRORS whose final reply is not ok
with a warning-severity primary error does not raise: the blocking path
returns the not-ok reply, and on the single-shot path the channel under
the same policy hands the not-ok reply back. -/
theorem raise_on_error_warning_returns (target : String) (replies : Nat → RPCReply)
    (retries : Int) (fuel s : Nat) (r : RPCReply) (e : RPCErr) (es : List RPCErr) :
    (lockLoop replies retries fuel 0 = some (.done s r) → r.ok = false →
      r.errors = e :: es → e.severity = "warning" →
      (lockRequest target replies true retries RaiseMode.ERRORS fuel).out =
        ReqOut.returned s r
      ∧ r.ok = false)
    ∧ (∀ r2 e2 es2, r2.ok = false → r2.errors = e2 :: es2 → e2.severity = "warning" →
        channelSend RaiseMode.ERRORS r2 = .ok r2) := by
  constructor
  · intro hl hok herr hsev
    refine ⟨?_, hok⟩
    have hne : ¬e.severity = "error" := by rw [hsev]; decide
    simp [lockRequest, hl, finalEscalation, hok, herr, hne, toReqOut]
  · intro r2 e2 es2 hok herr hsev
    have hne : ¬e2.severity = "error" := by rw [hsev]; decide
    simp [channelSend, hok, herr, hne]

/-- C7 witness: the warning-severity access-denied reply is returned,
not raised, under RaiseMode.ERRORS on both paths. -/
theorem raise_on_error_warning_returns_witness :
    ((lockRequest "candidate" (fun _ => warnReply) true 0 RaiseMode.ERRORS 5).out =
      ReqOut.returned 1 warnReply ∧ warnReply.ok = false)
    ∧ channelSend RaiseMode.ERRORS warnReply = .ok warnReply :=
  ⟨(raise_on_error_warning_returns "candidate" (fun _ => warnReply) 0 5 1 warnReply
      ⟨"access-denied", "warning"⟩ [] ).1 (by decide) rfl rfl rfl,
   (raise_on_error_warning_returns "candidate" (fun _ => warnReply) 0 5 1 warnReply
      ⟨"access-denied", "warning"⟩ [] ).2 warnReply ⟨"access-denied", "warning"⟩ [] rfl rfl
      rfl⟩

/-- C8: a non-blocking lock call sends exactly one lock request for the
named target whatever the outcome, its outcome is exactly what the
channel produced under the ambient policy, and a non-raising channel
hands the reply back unmodified. -/
theorem nonblocking_single_send (target : String) (replies : Nat → RPCReply)
    (retries : Int) (mode0 : RaiseMode) (fuel : Nat) :
    (lockRequest target replies false retries mode0 fuel).trace = [(lockNode target, mode0)]
    ∧ (lockRequest target replies false retries mode0 fuel).out =
        toReqOut 1 (channelSend mode0 (replies 0))
    ∧ (∀ r, channelSend mode0 (replies 0) = .ok r → r = replies 0) := by
  refine ⟨rfl, rfl, ?_⟩
  intro r h
  exact channelSend_ok_eq mode0 (replies 0) r h

/-- C8 witness: one request sent, the successful reply returned
unmodified. -/
theorem nonblocking_single_send_witness :
    (lockRequest "candidate" (fun _ => okReply) false 0 RaiseMode.ALL 5).trace =
      [(lockNode "candidate", RaiseMode.ALL)]
    ∧ okReply = okReply :=
  ⟨(nonblocking_single_send "candidate" (fun _ => okReply) 0 RaiseMode.ALL 5).1,
   (nonblocking_single_send "candidate" (fun _ => okReply) 0 RaiseMode.ALL 5).2.2 okReply
      rfl⟩

/-- C9: once LockContext entry has succeeded and the protected block
raises, the unlock request for the same target is sent exactly once at
exit; when the unlock does not raise the block exception reaches the
caller, and when the unlock raises its exception carries the pending
block exception rather than silently dropping it. -/
theorem ctx_release_on_body_exception (target : String) (lockReplies : Nat → RPCReply)
    (unlockReply : RPCReply) (blocking : Bool) (retries : Int) (fuel s : Nat)
    (r : RPCReply) (msg : String)
    (henter : (lockRequest target lockReplies blocking retries RaiseMode.ERRORS fuel).out =
      ReqOut.returned s r) :
    (runLockContext target lockReplies unlockReply blocking retries fuel
        (Except.error msg : Except String Nat)).unlockTrace =
      [(unlockNode target, RaiseMode.ERRORS)]
    ∧ (∀ u, channelSend RaiseMode.ERRORS unlockReply = .ok u →
        (runLockContext target lockReplies unlockReply blocking retries fuel
          (Except.error msg : Except String Nat)).out = CtxOut.raisedBody msg)
    ∧ (∀ e2, channelSend RaiseMode.ERRORS unlockReply = .error e2 →
        (runLockContext target lockReplies unlockReply blocking retries fuel
          (Except.error msg : Except String Nat)).out = CtxOut.raisedExit e2 (some msg)) := by
  refine ⟨?_, ?_, ?_⟩
  · simp [runLockContext, henter]
  · intro u h
    simp [runLockContext, henter, exitOutcome, h]
  · intro e2 h
    simp [runLockContext, henter, exitOutcome, h]

/-- C9 witness: after a successful non-blocking acquisition and a
raising block, the single unlock is sent; with a non-raising unlock the
block exception propagates, with a raising unlock that exception
carries the pending one. -/
theorem ctx_release_on_body_exception_witness :
    (runLockContext "candidate" (fun _ => okReply) warnReply false 0 5
        (Except.error "boom" : Except String Nat)).unlockTrace =
      [(unlockNode "candidate", RaiseMode.ERRORS)]
    ∧ (runLockContext "candidate" (fun _ => okReply) warnReply false 0 5
        (Except.error "boom" : Except String Nat)).out = CtxOut.raisedBody "boom"
    ∧ (runLockContext "candidate" (fun _ => okReply) sessErrReply false 0 5
        (Except.error "boom" : Except String Nat)).out =
      CtxOut.raisedExit (.rpcError ⟨"too-many-sessions", "error"⟩) (some "boom") :=
  ⟨(ctx_release_on_body_exception "candidate" (fun _ => okReply) warnReply false 0 5 1
      okReply "boom" (by decide)).1,
   (ctx_release_on_body_exception "candidate" (fun _ => okReply) warnReply false 0 5 1
      okReply "boom" (by decide)).2.1 warnReply rfl,
   (ctx_release_on_body_exception "candidate" (fun _ => okReply) sessErrReply false 0 5 1
      okReply "boom" (by decide)).2.2 (.rpcError ⟨"too-many-sessions", "error"⟩)
      rfl⟩

/-- C10: the blocking path reads the primary error of a not-ok reply
unguarded, so under the precondition that every not-ok reply carries at
least one error the blocking path never produces an indexing crash, and
a not-ok first reply with an empty error list crashes the loop with the
IndexError of errors[0] instead of a policy-governed outcome. -/
theorem blocking_unguarded_primary_error (target : String) (replies : Nat → RPCReply)
    (retries : Int) (mode0 : RaiseMode) (fuel : Nat) :
    ((∀ k, (replies k).ok = false → (replies k).errors ≠ []) →
      ∀ s, (lockRequest target replies true retries mode0 fuel).out ≠
          ReqOut.raised s PyExc.indexError
        ∧ (lockRequest target replies true retries mode0 fuel).out ≠
          ReqOut.raised s PyExc.noneTypeCrash)
    ∧ ((replies 0).ok = false → (replies 0).errors = [] → 1 ≤ fuel →
        (lockRequest target replies true retries mode0 fuel).out =
          ReqOut.raised 1 PyExc.indexError) := by
  constructor
  · intro hp s
    cases hl : lockLoop replies retries fuel 0 with
    | none => constructor <;> simp [lockRequest, hl]
    | some lo =>
      cases lo with
      | crash s2 =>
        have hc := lockLoop_crash_char replies retries fuel 0 s2 hl
        exact absurd hc.2 (hp _ hc.1)
      | done s2 r =>
        have hr : r = replies (s2 - 1) := lockLoop_done_last replies retries fuel 0 s2 r hl
        have hcr := finalEscalation_no_crash mode0 r (by
          intro hok
          rw [hr]
          exact hp _ (hr ▸ hok))
        have hout : (lockRequest target replies true retries mode0 fuel).out =
            toReqOut s2 (finalEscalation mode0 r) := by
          simp [lockRequest, hl]
        cases hfe : finalEscalation mode0 r with
        | ok r3 =>
          rw [hout, hfe]
          constructor <;> simp [toReqOut]
        | error e =>
          rw [hfe] at hcr
          rw [hout, hfe]
          constructor
          · intro heq
            simp [toReqOut] at heq
            exact hcr.2 (by rw [heq.2])
          · intro heq
            simp [toReqOut] at heq
            exact hcr.1 (by rw [heq.2])
  · intro hok herr hfuel
    obtain ⟨f, rfl⟩ : ∃ f, fuel = f + 1 := ⟨fuel - 1, by omega⟩
    have hl : lockLoop replies retries (f + 1) 0 = some (.crash 1) := by
      rw [lockLoop_step]
      simp [hok, herr]
      omega
    simp [lockRequest, hl]

/-- C10 witness: a persistently denying channel (whose not-ok replies
all carry an error) never crashes the blocking path, and a first reply
that is not ok with no errors crashes it with IndexError after one
send. -/
theorem blocking_unguarded_primary_error_witness :
    ((lockRequest "candidate" (fun _ => deniedReply) true 1 RaiseMode.ALL 5).out ≠
        ReqOut.raised 0 PyExc.indexError
      ∧ (lockRequest "candidate" (fun _ => deniedReply) true 1 RaiseMode.ALL 5).out ≠
        ReqOut.raised 0 PyExc.noneTypeCrash)
    ∧ (lockRequest "candidate" (fun _ => emptyErrReply) true 1 RaiseMode.ALL 5).out =
      ReqOut.raised 1 PyExc.indexError :=
  ⟨(blocking_unguarded_primary_error "candidate" (fun _ => deniedReply) 1 RaiseMode.ALL 5).1
      (fun _ _ => by decide) 0,
   (blocking_unguarded_primary_error "candidate" (fun _ => emptyErrReply) 1
      RaiseMode.ALL 5).2 rfl rfl (by decide)⟩

end NcclientLock
